import Mathlib

/-!
Shallow embedding of the tma session orchestrator (src/main.rs).

The program drives the tmux control executable.  We model:
  * a tmux invocation as its argument vector, a `List String` (the argv after
    the executable name);
  * the process environment as `Env`: the result of env::current_dir() and an
    oracle `exec` giving, for each argument vector, `none` when the process
    cannot be launched (Command::output() / Command::status() returns Err) and
    `some b` when it runs to completion with success flag `b`;
  * every orchestration function as a pure function returning the list of
    argument vectors actually launched (in order) together with an
    `Except TmaError Unit` mirroring the Rust `Result`.

Faithfulness notes, mirrored from the source:
  * `cmd.output().context(..)?` in Rust fails only when the process cannot be
    launched; a non-zero exit status still yields Ok, so it is ignored.  Only
    the has-session probe uses `.status()` and inspects `success()`.
  * the rename-window and send-keys closures build an `Option<Result<..>>`
    that is dropped, so even their launch failures are discarded.
  * `PathBuf::push` appends a relative path and replaces everything when the
    pushed path is absolute.
  * panics (`expect`, indexing `window[0]` on an empty vector) are modelled as
    distinguished error values.
-/

/-- Unix path semantics of `PathBuf::push`: a path string is absolute when it
starts with the separator character. -/
def isAbsolute (p : String) : Bool :=
  match p.data with
  | '/' :: _ => true
  | _ => false

/-- `PathBuf::push`: pushing an absolute path replaces the accumulated path,
pushing a relative one appends it after a separator. -/
def pushPath (base p : String) : String :=
  if isAbsolute p then p else base ++ "/" ++ p

/-- Split a character list at every separator character. -/
def splitSlash : List Char → List (List Char)
  | [] => [[]]
  | c :: rest =>
    if c = '/' then [] :: splitSlash rest
    else
      match splitSlash rest with
      | [] => [[c]]
      | h :: t => (c :: h) :: t

/-- `Path::file_name` for the shapes of paths the program meets: the last
non-empty component, `none` for the root path. -/
def baseName (p : String) : Option String :=
  (((splitSlash p.data).map (fun cs => String.mk cs)).filter
    (fun c => c ≠ "")).getLast?

/-- `opt.as_ref().map(|r| root.push(r))`: fold one optional override into an
accumulated root. -/
def pushOpt (base : String) (o : Option String) : String :=
  match o with
  | some r => pushPath base r
  | none => base

/-- Errors surfaced by the orchestrator, one constructor per `err_msg` /
`context` / panic site in the source. -/
inductive TmaError where
  /-- "Please configure at least one window." -/
  | emptyConfig
  /-- "Session already exists. Please explicitly set a unique name." -/
  | alreadyExists
  /-- "Error executing tmux": the has-session probe could not be launched. -/
  | tmuxExec
  /-- "Failed to get current directory": env::current_dir() failed. -/
  | noCurrentDir
  /-- panic in session_name: the current directory has no final component. -/
  | noFileName
  /-- panic: `self.window[0]` indexed into an empty window vector. -/
  | emptyIndexPanic
  /-- `cmd.output()` could not launch the process; carries the context
  string attached at the failing step. -/
  | launchFailure (context : String)
deriving DecidableEq, Repr

/-- The process environment: current working directory (if available) and the
outcome of launching each tmux invocation (`none` = cannot launch, `some b` =
exited with success flag `b`). -/
structure Env where
  currentDir : Option String
  exec : List String → Option Bool

/-- `if !dry_run { cmd.output().context(ctx)?; }`: in a dry run nothing is
launched; otherwise the command is launched, a launch failure aborts with its
context, and the exit status is ignored (Command::output is Ok either way). -/
def runStep (env : Env) (dry_run : Bool) (cmd : List String) (ctx : String) :
    List (List String) × Except TmaError Unit :=
  if dry_run then ([], .ok ())
  else
    match env.exec cmd with
    | none => ([cmd], .error (.launchFailure ctx))
    | some _ => ([cmd], .ok ())

/-- The rename-window / send-keys pattern: the closure result
(`Option<Result<..>>`) is dropped, so the launch is attempted when not a dry
run and its outcome is discarded entirely. -/
def runStepIgnored (dry_run : Bool) (cmd : List String) : List (List String) :=
  if dry_run then [] else [cmd]

/-- Configuration model, deserialized from the TOML file (one struct per
source struct, same field names). -/
structure Pane where
  root : Option String
  command : Option String
  split : Option String
deriving DecidableEq, Repr

structure Window where
  name : Option String
  root : Option String
  pane : List Pane
deriving DecidableEq, Repr

structure Session where
  name : Option String
  root : Option String
  pre_window : Option String
  attach : Option Bool
  window : List Window
deriving DecidableEq, Repr

/-- The argument vector built in Pane::create for a pane beyond index 0:
`split-window -t <session>:<pane_index> -c <pane_root>` plus `-h` pushed when
the split field is exactly "horizontal". -/
def splitCmd (p : Pane) (pane_index : Nat) (session_name window_root : String) :
    List String :=
  let pane_root := pushOpt window_root p.root
  let pane_name := session_name ++ ":" ++ toString pane_index
  ["split-window", "-t", pane_name, "-c", pane_root] ++
    (match p.split with
     | some s => if s = "horizontal" then ["-h"] else []
     | none => [])

/-- Pane::create: for pane_index ≠ 0 issue the split-window command (launch
failure aborts with "Failed to create new pane", exit status ignored); then,
if a command is configured, attempt send-keys with its outcome discarded. -/
def Pane.create (p : Pane) (env : Env) (dry_run : Bool)
    (_window_index pane_index : Nat) (session_name window_root : String) :
    List (List String) × Except TmaError Unit :=
  let sendPart : List (List String) :=
    match p.command with
    | some c => runStepIgnored dry_run ["send-keys", c ++ "\n"]
    | none => []
  if pane_index ≠ 0 then
    let cmd := splitCmd p pane_index session_name window_root
    let (c1, r1) := runStep env dry_run cmd "Failed to create new pane"
    match r1 with
    | .error e => (c1, .error e)
    | .ok _ => (c1 ++ sendPart, .ok ())
  else
    (sendPart, .ok ())

/-- The `for (i, pane) in self.pane.iter().enumerate()` loop: create each pane
in order, aborting on the first error. -/
def panesLoop (env : Env) (dry_run : Bool) (window_index : Nat)
    (session_name window_root : String) :
    Nat → List Pane → List (List String) × Except TmaError Unit
  | _, [] => ([], .ok ())
  | i, p :: rest =>
    let (c1, r1) := p.create env dry_run window_index i session_name window_root
    match r1 with
    | .error e => (c1, .error e)
    | .ok _ =>
      let (c2, r2) := panesLoop env dry_run window_index session_name window_root
        (i + 1) rest
      (c1 ++ c2, r2)

/-- Window::create: compute the window root; for index ≠ 0 issue new-window at
the first pane root (launch failure aborts, exit status ignored); attempt the
optional rename-window with its outcome discarded; then create the panes. -/
def Window.create (w : Window) (env : Env) (dry_run : Bool) (index : Nat)
    (session_name : String) (session_root : String) :
    List (List String) × Except TmaError Unit :=
  let window_root := pushOpt session_root w.root
  let newPart : List (List String) × Except TmaError Unit :=
    if index ≠ 0 then
      let pane_root := pushOpt window_root ((w.pane.head?).bind Pane.root)
      runStep env dry_run ["new-window", "-t", session_name, "-c", pane_root]
        "Failed to create new window"
    else ([], .ok ())
  match newPart with
  | (c1, .error e) => (c1, .error e)
  | (c1, .ok _) =>
    let renamePart : List (List String) :=
      match w.name with
      | some n => runStepIgnored dry_run ["rename-window", "-t", session_name, n]
      | none => []
    let (c2, r2) := panesLoop env dry_run index session_name window_root 0 w.pane
    (c1 ++ renamePart ++ c2, r2)

/-- The `for (i, window) in self.window.iter().enumerate()` loop. -/
def windowsLoop (env : Env) (dry_run : Bool) (session_name session_root : String) :
    Nat → List Window → List (List String) × Except TmaError Unit
  | _, [] => ([], .ok ())
  | i, w :: rest =>
    let (c1, r1) := w.create env dry_run i session_name session_root
    match r1 with
    | .error e => (c1, .error e)
    | .ok _ =>
      let (c2, r2) := windowsLoop env dry_run session_name session_root (i + 1) rest
      (c1 ++ c2, r2)

/-- Session::session_name: the explicit name when present, otherwise the base
name of the current working directory (failure to obtain it is the
"Failed to get current directory" error; a directory without a final
component hits the expect panic). -/
def Session.session_name (s : Session) (env : Env) : Except TmaError String :=
  match s.name with
  | some n => .ok n
  | none =>
    match env.currentDir with
    | none => .error .noCurrentDir
    | some cwd =>
      match baseName cwd with
      | none => .error .noFileName
      | some b => .ok b

/-- Session::create: resolve session / window-0 / pane-0.0 roots by cascading
pushes from the current directory; issue new-session at the pane-0.0 root
(launch failure aborts, exit status ignored); run the windows loop; issue
select-pane targeting session:0.0; finally, when the attach field resolves
true (absent defaults to true), build the attach command and launch it only
when not a dry run (exec replaces the process; its error value is ignored by
the source, which falls through to Ok). -/
def Session.create (s : Session) (env : Env) (dry_run : Bool) :
    List (List String) × Except TmaError Unit :=
  match env.currentDir with
  | none => ([], .error .noCurrentDir)
  | some cwd =>
    let session_root := pushOpt cwd s.root
    match s.window with
    | [] => ([], .error .emptyIndexPanic)
    | w0 :: _ =>
      let window_root := pushOpt session_root w0.root
      let pane_root := pushOpt window_root ((w0.pane.head?).bind Pane.root)
      match s.session_name env with
      | .error e => ([], .error e)
      | .ok name =>
        let (c1, r1) := runStep env dry_run
          ["new", "-d", "-s", name, "-c", pane_root] "Error creating session"
        match r1 with
        | .error e => (c1, .error e)
        | .ok _ =>
          let (c2, r2) := windowsLoop env dry_run name session_root 0 s.window
          match r2 with
          | .error e => (c1 ++ c2, .error e)
          | .ok _ =>
            let (c3, r3) := runStep env dry_run
              ["select-pane", "-t", name ++ ":0.0"] "Error selecting pane"
            match r3 with
            | .error e => (c1 ++ c2 ++ c3, .error e)
            | .ok _ =>
              let c4 :=
                if s.attach.getD true then
                  runStepIgnored dry_run ["attach", "-t", name]
                else []
              (c1 ++ c2 ++ c3 ++ c4, .ok ())

/-- Session::start: reject an empty window list before anything runs; resolve
the session name; launch the has-session probe unconditionally (even in a dry
run) via .status(): a launch failure is "Error executing tmux", a successful
exit means the session already exists, and a non-zero exit proceeds to
create. -/
def Session.start (s : Session) (env : Env) (dry_run : Bool) :
    List (List String) × Except TmaError Unit :=
  if s.window.isEmpty then ([], .error .emptyConfig)
  else
    match s.session_name env with
    | .error e => ([], .error e)
    | .ok name =>
      let probe := ["has-session", "-t", name]
      match env.exec probe with
      | none => ([probe], .error .tmuxExec)
      | some true => ([probe], .error .alreadyExists)
      | some false =>
        let (cs, r) := s.create env dry_run
        (probe :: cs, r)

/-- Session::kill: resolve the session name and issue kill-session (launch
failure is "Error killing session", exit status ignored). -/
def Session.kill (s : Session) (env : Env) (dry_run : Bool) :
    List (List String) × Except TmaError Unit :=
  match s.session_name env with
  | .error e => ([], .error e)
  | .ok name =>
    runStep env dry_run ["kill-session", "-t", name] "Error killing session"

/-- The pane-root cascade performed by Session::create / Window::create /
Pane::create: the invocation's current directory, then the session, window
and pane root overrides pushed in order, each skipped when absent. -/
def resolveRoot (cwd : String) (sroot wroot proot : Option String) : String :=
  pushOpt (pushOpt (pushOpt cwd sroot) wroot) proot

/-! Helper lemmas about dry runs: no command inside create is ever launched. -/

lemma paneCreate_dry (p : Pane) (env : Env) (wi i : Nat) (n wr : String) :
    p.create env true wi i n wr = ([], .ok ()) := by
  unfold Pane.create runStep runStepIgnored
  cases p.command <;> cases Decidable.em (i ≠ 0) <;> simp_all

lemma panesLoop_dry (env : Env) (wi : Nat) (n wr : String) :
    ∀ i ps, panesLoop env true wi n wr i ps = ([], .ok ()) := by
  intro i ps
  induction ps generalizing i with
  | nil => rfl
  | cons p rest ih => simp [panesLoop, paneCreate_dry, ih]

lemma windowCreate_dry (w : Window) (env : Env) (i : Nat) (n sr : String) :
    w.create env true i n sr = ([], .ok ()) := by
  unfold Window.create runStep runStepIgnored
  cases w.name <;> cases Decidable.em (i ≠ 0) <;>
    simp_all [panesLoop_dry]

lemma windowsLoop_dry (env : Env) (n sr : String) :
    ∀ i ws, windowsLoop env true n sr i ws = ([], .ok ()) := by
  intro i ws
  induction ws generalizing i with
  | nil => rfl
  | cons w rest ih => simp [windowsLoop, windowCreate_dry, ih]

lemma Session.create_dry_issued (s : Session) (env : Env) :
    (s.create env true).1 = [] := by
  unfold Session.create
  cases env.currentDir <;> try rfl
  cases s.window <;> try rfl
  cases s.session_name env <;>
    simp [runStep, runStepIgnored, windowsLoop_dry]

lemma Session.create_no_cwd (s : Session) (env : Env) (d : Bool)
    (hc : env.currentDir = none) :
    s.create env d = ([], .error .noCurrentDir) := by
  unfold Session.create
  simp [hc]

/-- C3: a configuration with an empty window list makes start fail with the
empty-configuration error and issue zero external commands (the has-session
probe included), for either value of the dry-run flag. -/
theorem C3_empty_config_no_commands (s : Session) (env : Env) (dry : Bool)
    (h : s.window = []) :
    s.start env dry = ([], .error .emptyConfig) := by
  simp [Session.start, h]

theorem C3_empty_config_no_commands_witness :
    ({ name := some "s", root := none, pre_window := none, attach := none,
       window := [] } : Session).window = [] ∧
      Session.start
        { name := some "s", root := none, pre_window := none, attach := none,
          window := [] }
        { currentDir := some "/r", exec := fun _ => some true } false =
        ([], .error .emptyConfig) :=
  ⟨rfl, C3_empty_config_no_commands _ _ false rfl⟩

/-- C4: when the window list is non-empty and the has-session probe exits
successfully (the session exists), start fails with the already-exists error
and the probe is the only command ever issued: no creation step runs. -/
theorem C4_existing_session_aborts (s : Session) (env : Env) (n : String)
    (dry : Bool) (hw : s.window ≠ [])
    (hn : s.session_name env = .ok n)
    (hp : env.exec ["has-session", "-t", n] = some true) :
    s.start env dry = ([["has-session", "-t", n]], .error .alreadyExists) := by
  unfold Session.start
  rcases hws : s.window with _ | ⟨w, ws⟩
  · exact absurd hws hw
  · simp [hn, hp]

theorem C4_existing_session_aborts_witness :
    Session.start
      { name := some "s", root := none, pre_window := none, attach := none,
        window := [{ name := none, root := none, pane := [] }] }
      { currentDir := some "/r", exec := fun _ => some true } false =
      ([["has-session", "-t", "s"]], .error .alreadyExists) :=
  C4_existing_session_aborts _ _ "s" false (by simp) rfl rfl

/-- C5: the pane-root cascade pushes the session, window and pane overrides
onto the current directory in order; when all three are relative the result
is the plain join cwd/S/W/P, and an absolute pane override yields exactly
itself whatever the earlier levels are. -/
theorem C5_root_resolution (cwd S W P Q : String) (sr wr : Option String)
    (hS : isAbsolute S = false) (hW : isAbsolute W = false)
    (hP : isAbsolute P = false) (hQ : isAbsolute Q = true) :
    resolveRoot cwd (some S) (some W) (some P) =
      cwd ++ "/" ++ S ++ "/" ++ W ++ "/" ++ P ∧
    resolveRoot cwd sr wr (some Q) = Q := by
  constructor
  · simp [resolveRoot, pushOpt, pushPath, hS, hW, hP]
  · simp [resolveRoot, pushOpt, pushPath, hQ]

theorem C5_root_resolution_witness :
    isAbsolute "a" = false ∧ isAbsolute "b" = false ∧
    isAbsolute "c" = false ∧ isAbsolute "/q" = true ∧
    resolveRoot "/r" (some "a") (some "b") (some "c") = "/r/a/b/c" ∧
    resolveRoot "/r" (some "a") (some "b") (some "/q") = "/q" := by
  refine ⟨by decide, by decide, by decide, by decide, ?_, ?_⟩
  · exact (C5_root_resolution "/r" "a" "b" "c" "/q" (some "a") (some "b")
      (by decide) (by decide) (by decide) (by decide)).1
  · exact (C5_root_resolution "/r" "a" "b" "c" "/q" (some "a") (some "b")
      (by decide) (by decide) (by decide) (by decide)).2

/-- C6: a non-dry kill run issues exactly one external command,
kill-session targeting the resolved name, whatever the windows and panes
are. -/
theorem C6_kill_single_command (s : Session) (env : Env) (n : String)
    (hn : s.session_name env = .ok n) :
    (s.kill env false).1 = [["kill-session", "-t", n]] := by
  unfold Session.kill runStep
  rw [hn]
  cases h : env.exec ["kill-session", "-t", n] <;> simp [h]

theorem C6_kill_single_command_witness :
    (Session.kill
      { name := some "work", root := none, pre_window := none,
        attach := none,
        window := [{ name := some "w", root := some "a",
                     pane := [{ root := none, command := some "ls",
                                split := none }] }] }
      { currentDir := some "/r", exec := fun _ => some true } false).1 =
      [["kill-session", "-t", "work"]] :=
  C6_kill_single_command _ _ "work" rfl

/-- C9: the resolved session name is the explicit name field when present and
otherwise the base name of the current working directory; every run of start
that gets past the empty-window check launches the has-session probe
targeting exactly that name first. -/
theorem C9_session_name_resolution (s : Session) (env : Env)
    (n cwd b : String) (dry : Bool) :
    (s.name = some n → s.session_name env = .ok n) ∧
    (s.name = none → env.currentDir = some cwd → baseName cwd = some b →
      s.session_name env = .ok b) ∧
    (s.session_name env = .ok n → s.window ≠ [] →
      (s.start env dry).1.head? = some ["has-session", "-t", n]) := by
  refine ⟨?_, ?_, ?_⟩
  · intro h
    simp [Session.session_name, h]
  · intro h hc hb
    simp [Session.session_name, h, hc, hb]
  · intro hn hw
    unfold Session.start
    rcases hws : s.window with _ | ⟨w, ws⟩
    · exact absurd hws hw
    · simp only [List.isEmpty_cons, Bool.false_eq_true, if_false, hn]
      cases hp : env.exec ["has-session", "-t", n] with
      | none => rfl
      | some b => cases b <;> simp [hp]

theorem C9_session_name_resolution_witness :
    ({ name := none, root := none, pre_window := none, attach := none,
       window := [{ name := none, root := none, pane := [] }] } : Session).name
        = none ∧
    Session.session_name
      { name := none, root := none, pre_window := none, attach := none,
        window := [{ name := none, root := none, pane := [] }] }
      { currentDir := some "/home/u/proj", exec := fun _ => some false } =
      .ok "proj" :=
  ⟨rfl,
    (C9_session_name_resolution _ _ "proj" "/home/u/proj" "proj" false).2.1
      rfl rfl (by decide)⟩

/-- C10: for a pane beyond index 0 with a present split field, the
split-window argument vector carries a trailing -h exactly when the field is
the string "horizontal"; any other string is accepted without a validation
error (with every launch succeeding, Pane::create still returns Ok) and
produces the default vector without -h. -/
theorem C10_split_horizontal_flag (p : Pane) (i : Nat) (n wr sp : String)
    (hi : i ≠ 0) (hs : p.split = some sp) :
    (splitCmd p i n wr =
        ["split-window", "-t", n ++ ":" ++ toString i, "-c",
          pushOpt wr p.root, "-h"] ↔ sp = "horizontal") ∧
    (sp ≠ "horizontal" →
      splitCmd p i n wr =
        ["split-window", "-t", n ++ ":" ++ toString i, "-c",
          pushOpt wr p.root]) ∧
    (p.create { currentDir := none, exec := fun _ => some true } false 0 i n
        wr).2 = .ok () := by
  refine ⟨?_, ?_, ?_⟩
  · constructor
    · intro h
      by_contra hne
      simp [splitCmd, hs, hne] at h
    · intro h
      simp [splitCmd, hs, h]
  · intro h
    simp [splitCmd, hs, h]
  · unfold Pane.create runStep runStepIgnored
    cases p.command <;> simp [hi]

theorem C10_split_horizontal_flag_witness :
    (1 : Nat) ≠ 0 ∧
    ({ root := none, command := none, split := some "sideways" } : Pane).split
      = some "sideways" ∧
    splitCmd { root := none, command := none, split := some "sideways" } 1 "s"
        "/r" = ["split-window", "-t", "s:1", "-c", "/r"] ∧
    (Pane.create { root := none, command := none, split := some "sideways" }
        { currentDir := none, exec := fun _ => some true } false 0 1 "s"
        "/r").2 = .ok () := by
  refine ⟨by decide, rfl, ?_, ?_⟩
  · exact (C10_split_horizontal_flag _ 1 "s" "/r" "sideways" (by decide)
      rfl).2.1 (by decide)
  · exact (C10_split_horizontal_flag _ 1 "s" "/r" "sideways" (by decide)
      rfl).2.2

/-- C7: a dry run issues at most the has-session probe (and issues exactly it
whenever the window list is non-empty and the name resolves), never a
mutating command; an empty window list fails with the empty-configuration
error for either flag value, and an unavailable current working directory
makes a live run and a dry run behave identically. -/
theorem C7_dry_run_probe_only (s : Session) (env : Env) (dry : Bool)
    (n : String) :
    ((s.start env true).1 = [] ∨
      ∃ m, (s.start env true).1 = [["has-session", "-t", m]]) ∧
    (s.window ≠ [] → s.session_name env = .ok n →
      (s.start env true).1 = [["has-session", "-t", n]]) ∧
    (s.window = [] → s.start env dry = ([], .error .emptyConfig)) ∧
    (env.currentDir = none → s.start env dry = s.start env true) := by
  have conj2 : ∀ m : String, s.window ≠ [] → s.session_name env = .ok m →
      (s.start env true).1 = [["has-session", "-t", m]] := by
    intro m hw hn
    unfold Session.start
    rcases hws : s.window with _ | ⟨w, ws⟩
    · exact absurd hws hw
    · simp only [List.isEmpty_cons, Bool.false_eq_true, if_false, hn]
      cases hp : env.exec ["has-session", "-t", m] with
      | none => rfl
      | some b =>
        cases b
        · simp [Session.create_dry_issued]
        · rfl
  refine ⟨?_, conj2 n, ?_, ?_⟩
  · rcases hws : s.window with _ | ⟨w, ws⟩
    · left
      simp [Session.start, hws]
    · cases hn : s.session_name env with
      | error e =>
        left
        simp [Session.start, hws, hn]
      | ok m => exact Or.inr ⟨m, conj2 m (by simp [hws]) hn⟩
  · intro h
    simp [Session.start, h]
  · intro hc
    unfold Session.start
    cases hw : s.window.isEmpty
    · simp only [Bool.false_eq_true, if_false]
      cases he : s.session_name env with
      | error e => rfl
      | ok m =>
        simp only
        cases hp : env.exec ["has-session", "-t", m] with
        | none => rfl
        | some b =>
          cases b
          · simp only [Session.create_no_cwd s env dry hc,
              Session.create_no_cwd s env true hc]
          · rfl
    · simp only [if_true]

/-- C8: in a successful non-dry create run the issued sequence is the
new-session command, then every window and pane command, then select-pane
targeting name:0.0, and finally the attach command exactly when the attach
field resolves true (absent defaults to true); a dry-run create issues
nothing at all (in particular it never attaches) and returns success. -/
theorem C8_select_last_attach_guarded (s : Session) (env : Env)
    (cwd n : String) (hc : env.currentDir = some cwd)
    (hn : s.session_name env = .ok n)
    (hok : (s.create env false).2 = .ok ()) :
    (∃ w0 ws, s.window = w0 :: ws ∧
      s.create env false =
        (["new", "-d", "-s", n, "-c",
            resolveRoot cwd s.root w0.root ((w0.pane.head?).bind Pane.root)] ::
          ((windowsLoop env false n (pushOpt cwd s.root) 0 s.window).1 ++
            ([["select-pane", "-t", n ++ ":0.0"]] ++
              (if s.attach.getD true then [["attach", "-t", n]] else []))),
          .ok ())) ∧
    s.create env true = ([], .ok ()) := by
  rcases hws : s.window with _ | ⟨w0, ws⟩
  · unfold Session.create at hok
    simp [hc, hws] at hok
  · constructor
    · refine ⟨w0, ws, rfl, ?_⟩
      unfold Session.create at hok ⊢
      simp only [hc, hws, hn, resolveRoot, runStep, runStepIgnored,
        Bool.false_eq_true, if_false] at hok ⊢
      cases h1 : env.exec ["new", "-d", "-s", n, "-c",
          pushOpt (pushOpt (pushOpt cwd s.root) w0.root)
            ((w0.pane.head?).bind Pane.root)] with
      | none => simp [h1] at hok
      | some b1 =>
        simp only [h1] at hok ⊢
        rcases hw2 : windowsLoop env false n (pushOpt cwd s.root) 0
            (w0 :: ws) with ⟨c2, r2⟩
        simp only [hw2] at hok ⊢
        cases r2 with
        | error e => simp at hok
        | ok u =>
          cases h3 : env.exec ["select-pane", "-t", n ++ ":0.0"] with
          | none => simp [h3] at hok
          | some b3 => simp [h3]
    · unfold Session.create
      simp only [hc, hws, hn, runStep, runStepIgnored, if_true,
        windowsLoop_dry]
      simp

theorem C7_dry_run_probe_only_witness :
    Session.start
        { name := some "s", root := none, pre_window := none, attach := none,
          window := [] }
        { currentDir := some "/r", exec := fun _ => some true } false =
      ([], .error .emptyConfig) ∧
    (Session.start
        { name := some "s", root := none, pre_window := none, attach := none,
          window := [{ name := none, root := none, pane := [] }] }
        { currentDir := some "/r", exec := fun _ => some false } true).1 =
      [["has-session", "-t", "s"]] :=
  ⟨(C7_dry_run_probe_only _ _ false "s").2.2.1 rfl,
    (C7_dry_run_probe_only _
        { currentDir := some "/r", exec := fun _ => some false } true
        "s").2.1 (by simp) rfl⟩

def c8Cfg : Session :=
  { name := some "s", root := none, pre_window := none, attach := some false,
    window := [{ name := none, root := none, pane := [] }] }

def c8Env : Env :=
  { currentDir := some "/r", exec := fun _ => some true }

theorem C8_select_last_attach_guarded_witness :
    (∃ w0 ws, c8Cfg.window = w0 :: ws ∧
      Session.create c8Cfg c8Env false =
        (["new", "-d", "-s", "s", "-c",
            resolveRoot "/r" c8Cfg.root w0.root
              ((w0.pane.head?).bind Pane.root)] ::
          ((windowsLoop c8Env false "s" (pushOpt "/r" c8Cfg.root) 0
              c8Cfg.window).1 ++
            ([["select-pane", "-t", "s" ++ ":0.0"]] ++
              (if c8Cfg.attach.getD true then [["attach", "-t", "s"]]
               else []))),
          .ok ())) ∧
    Session.create c8Cfg c8Env true = ([], .ok ()) :=
  C8_select_last_attach_guarded c8Cfg c8Env "/r" "s" rfl rfl rfl

/-! The configuration and environment of the one-window, two-pane scenario:
no explicit name, current directory /home/u/proj, a session with that name
absent, every launch succeeding. -/

def c1Cfg : Session :=
  { name := none, root := none, pre_window := none, attach := none,
    window :=
      [{ name := none, root := none,
         pane := [{ root := none, command := some "ls", split := none },
                  { root := none, command := some "top",
                    split := some "horizontal" }] }] }

def c1Env : Env :=
  { currentDir := some "/home/u/proj",
    exec := fun c =>
      if c.head? = some "has-session" then some false else some true }

/-- C1, refuting evaluation: the split-window invocation for pane (0,1) of
the one-window two-pane scenario carries the target proj:1 — the session name
followed by the PANE index (format!("\x7b\x7d:\x7b\x7d", session_name,
pane_index) in Pane::create) — and the invocation proj:0 demanded by the
claim is never issued. -/
theorem C1_split_targets_pane_index :
    Session.start c1Cfg c1Env false =
      ([["has-session", "-t", "proj"],
        ["new", "-d", "-s", "proj", "-c", "/home/u/proj"],
        ["send-keys", "ls\n"],
        ["split-window", "-t", "proj:1", "-c", "/home/u/proj", "-h"],
        ["send-keys", "top\n"],
        ["select-pane", "-t", "proj:0.0"],
        ["attach", "-t", "proj"]], .ok ()) ∧
    ["split-window", "-t", "proj:0", "-c", "/home/u/proj", "-h"] ∉
      (Session.start c1Cfg c1Env false).1 := by
  constructor
  · rfl
  · decide

/-! A run in which the new-session step exits with non-zero status and the
rename-window and send-keys steps cannot even be launched. -/

def c2Cfg : Session :=
  { name := some "s", root := none, pre_window := none, attach := some false,
    window :=
      [{ name := some "w", root := none,
         pane := [{ root := none, command := some "ls",
                    split := none }] }] }

def c2Env : Env :=
  { currentDir := some "/r",
    exec := fun c =>
      if c.head? = some "has-session" then some false
      else if c.head? = some "new" then some false
      else if c.head? = some "rename-window" then none
      else if c.head? = some "send-keys" then none
      else some true }

/-- C2, refuting evaluation: with new-session exiting non-zero and
rename-window / send-keys failing to launch, the run still issues every
remaining step and returns success — non-zero exit statuses are never
inspected (Command::output is Ok for them) and the rename / send-keys
closures' Results are dropped — contradicting the claimed abort-on-failure
behavior. -/
theorem C2_failures_do_not_abort :
    Session.start c2Cfg c2Env false =
      ([["has-session", "-t", "s"],
        ["new", "-d", "-s", "s", "-c", "/r"],
        ["rename-window", "-t", "s", "w"],
        ["send-keys", "ls\n"],
        ["select-pane", "-t", "s:0.0"]], .ok ()) ∧
    c2Env.exec ["new", "-d", "-s", "s", "-c", "/r"] = some false ∧
    c2Env.exec ["rename-window", "-t", "s", "w"] = none ∧
    c2Env.exec ["send-keys", "ls\n"] = none := by
  refine ⟨rfl, rfl, rfl, rfl⟩
